import Mathlib

/-!
Verification development for `autolabel.py` (datspike/autolabel).

The program is a batch photo-labelling utility.  The definitions below are a
shallow embedding of its per-image transform pipeline (`process_image`,
`check_size`, `null_one`), its spreadsheet adapter (`load_rows_from_xlsx`,
`write_files_in_xlsx`) and the batch driver (`main`).  Bitmaps are modelled by
their integer dimensions, a bitmap's JPEG-encoded byte size at quality `q` by
an abstract function `sz : Int → Nat`, spreadsheets by cell maps, and the
driver's externally visible effects by an event trace.
-/

namespace Autolabel

/-! ## Resize Stage (`process_image`, lines 103–108)

Python:
```
if image.size[0] > max_res_x:
    image = image.resize((max_res_x, image.size[1] * max_res_x // image.size[0]), ...)
if image.size[0] > max_res_y:
    image = image.resize((image.size[0] * max_res_y // image.size[1], max_res_y), ...)
```
A bitmap is modelled by its `(width, height)`; `//` is `Nat` division. -/

/-- First bound check: if width exceeds `max_res_x`, resize to
`(max_res_x, h * max_res_x / w)`. -/
def resize1 (maxResX w h : Nat) : Nat × Nat :=
  if w > maxResX then (maxResX, h * maxResX / w) else (w, h)

/-- Second bound check: if (possibly updated) width exceeds `max_res_y`,
resize to `(w * max_res_y / h, max_res_y)`. -/
def resize2 (maxResY w h : Nat) : Nat × Nat :=
  if w > maxResY then (w * maxResY / h, maxResY) else (w, h)

/-- The whole resize stage: the two bound checks in sequence. -/
def resizeStage (maxResX maxResY w h : Nat) : Nat × Nat :=
  let p := resize1 maxResX w h
  resize2 maxResY p.1 p.2

/-! ## Size Search (`process_image`, lines 111–113, and `check_size`)

Python:
```
q = 90
while check_size(image, quality=q) > max_size * 1024 * 1024:
    q -= 5
```
`check_size image q` (the encoded byte size of the fixed bitmap at quality
`q`) is abstracted as `sz : Int → Nat`; the byte budget
`max_size * 1024 * 1024` as `B : Nat` (the loop condition `size > B` on an
integer size is unchanged by replacing a real budget with its floor).  The
Python loop has no fuel; we embed it with an explicit iteration bound `fuel`
and quantify over it, so statements about termination and non-termination of
the real loop become statements about `sizeLoop` for every / some `fuel`. -/

/-- The quality-decrement loop, with explicit fuel.  `sizeLoop sz B fuel q`
runs up to `fuel` iterations of `while sz q > B: q -= 5` from quality `q`. -/
def sizeLoop (sz : Int → Nat) (B : Nat) : Nat → Int → Int
  | 0, q => q
  | fuel + 1, q => if B < sz q then sizeLoop sz B fuel (q - 5) else q

/-- A concrete size profile used to exercise the search: 10 bytes at
qualities ≥ 88, 3 bytes below. -/
def szW : Int → Nat := fun q => if 88 ≤ q then 10 else 3

/-- A concrete size profile that never fits a zero budget. -/
def szOne : Int → Nat := fun _ => 1

/-! ## Label Compositor (`process_image`, lines 116–126, and `null_one`)

Python:
```
text_size = draw.textsize(text, font)
rectangle_coords = (((image.size[0] - text_size[0] - font_size) * corner[0],
                     (image.size[1] - text_size[1] - font_size) * corner[1]),
                    ((image.size[0] - 1) * corner[0] + (text_size[0] + font_size) * null_one(corner[0]),
                     (image.size[1] - 1) * corner[1] + (text_size[1] + font_size) * null_one(corner[1])))
draw.rectangle(rectangle_coords, fill=(255, 255, 255, 255 * opacity // 100), outline=(0, 0, 0), width=4)
draw.text((rectangle_coords[0][0] + font_size // 2, rectangle_coords[0][1] + font_size // 2), ...)
```
The image is `w × h`, the measured text box `tw × th`, the font size `fs`,
and the corner flags `(cx, cy)`.  All are integers; Python `//` on these
(non-negative divisor) is Lean's `Int` division. -/

/-- `null_one` from the source: returns 0 for 1 and 1 for 0; any other
argument falls off the end of the Python function (returns `None`),
modelled as `none`. -/
def null_one (n : Int) : Option Int :=
  if n = 0 then some 1 else if n = 1 then some 0 else none

/-- The label rectangle `((x0, y0), (x1, y1))`. -/
structure Rect where
  x0 : Int
  y0 : Int
  x1 : Int
  y1 : Int
deriving DecidableEq

/-- `rectangle_coords` from lines 119–122.  `none` when a corner flag is
outside {0, 1} (where the Python helper would return `None` and the
arithmetic would fail). -/
def rectangleCoords (w h tw th fs cx cy : Int) : Option Rect :=
  match null_one cx, null_one cy with
  | some nx, some ny =>
      some { x0 := (w - tw - fs) * cx
           , y0 := (h - th - fs) * cy
           , x1 := (w - 1) * cx + (tw + fs) * nx
           , y1 := (h - 1) * cy + (th + fs) * ny }
  | _, _ => none

/-- The text anchor from line 125: rectangle origin plus `font_size // 2`
in each coordinate. -/
def textOrigin (r : Rect) (fs : Int) : Int × Int :=
  (r.x0 + fs / 2, r.y0 + fs / 2)

/-- `r` contains the axis-aligned box with top-left corner `(tx, ty)`,
width `tw` and height `th`, with a nonzero margin on all four sides. -/
def strictlyContains (r : Rect) (tx ty tw th : Int) : Prop :=
  r.x0 < tx ∧ tx + tw < r.x1 ∧ r.y0 < ty ∧ ty + th < r.y1

instance (r : Rect) (tx ty tw th : Int) :
    Decidable (strictlyContains r tx ty tw th) := by
  unfold strictlyContains; infer_instance

/-- The fill colour of the label rectangle (line 123): white with alpha
`255 * opacity // 100`. -/
def rectangleFill (opacity : Nat) : Nat × Nat × Nat × Nat :=
  (255, 255, 255, 255 * opacity / 100)

/-- The outline colour of the label rectangle (line 123): black. -/
def rectangleOutline : Nat × Nat × Nat := (0, 0, 0)

/-- The outline width of the label rectangle (line 123). -/
def rectangleOutlineWidth : Nat := 4

/-- Modelled from the spec's words, for comparison with the code: the fill
alpha as `round(255 × opacity / 100)` rounding to nearest (half rounds
up), i.e. `(255 * opacity + 50) / 100`. -/
def specRoundAlpha (opacity : Nat) : Nat := (255 * opacity + 50) / 100

/-! ## Spreadsheet adapter (`load_rows_from_xlsx`, `write_files_in_xlsx`)

A worksheet's work-item region is the list of `(B cell, C cell)` pairs from
row 3 downward (`none` = empty cell; openpyxl yields `None` for any cell
beyond the used range, so a finite list with an implicit `none` tail is
faithful).  For `write_files_in_xlsx` the whole sheet is a cell map
`row → column → Option String`. -/

/-- Python `dict` insertion: an existing key keeps its position and gets
the new value; a new key is appended at the end. -/
def dictInsert (d : List (String × Option String)) (k : String)
    (v : Option String) : List (String × Option String) :=
  match d with
  | [] => [(k, v)]
  | (k', v') :: rest =>
      if k' = k then (k, v) :: rest else (k', v') :: dictInsert rest k v

/-- The row-reading loop of `load_rows_from_xlsx` (lines 45–51): walk the
rows from row 3, stop at the first empty path cell, default an empty
caption cell to `sample_text`, and build the dict. -/
def loadRowsAux (sampleText : Option String)
    (acc : List (String × Option String)) :
    List (Option String × Option String) → List (String × Option String)
  | [] => acc
  | (none, _) :: _ => acc
  | (some p, c) :: rest =>
      loadRowsAux sampleText
        (dictInsert acc p (match c with
          | none => sampleText
          | some t => some t)) rest

/-- `load_rows_from_xlsx` (lines 35–55): the work-item dict, or `none`
when no rows were found (lines 52–55). -/
def load_rows_from_xlsx (sampleText : Option String)
    (rows : List (Option String × Option String)) :
    Option (List (String × Option String)) :=
  let d := loadRowsAux sampleText [] rows
  if d = [] then none else some d

/-- Writing one cell of the sheet. -/
def setCell (wb : Nat → Nat → Option String) (r c : Nat) (v : String) :
    Nat → Nat → Option String :=
  fun r' c' => if r' = r ∧ c' = c then some v else wb r' c'

/-- The write loop of `write_files_in_xlsx` (lines 70–71): the i-th
discovered file path goes to row `3 + i`, column 2 (column B).  In the
source the row is `file_list.index(file) + 3`, which for the distinct
`scandir` entries is exactly the position in the list. -/
def writeCells (wb : Nat → Nat → Option String) (row : Nat) :
    List String → (Nat → Nat → Option String)
  | [] => wb
  | f :: fs => writeCells (setCell wb row 2 f) (row + 1) fs

/-- `write_files_in_xlsx` (lines 58–72) as a transformation of the cell
map: the discovered file paths are written from row 3 downward and the
workbook is saved. -/
def write_files_in_xlsx (wb : Nat → Nat → Option String)
    (files : List String) : Nat → Nat → Option String :=
  writeCells wb 3 files

/-! ## Output path and batch driver (`process_image` line 129, `main`) -/

/-- Python `Path.name`: the part of the path after the last '/'. -/
def pathName (p : String) : String :=
  ((p.data.reverse.takeWhile fun c => c ≠ '/').reverse).asString

/-- `path.name.rsplit('.', 1)[0]`: the name up to the last dot, or the
whole name when it has no dot. -/
def stemOf (s : String) : String :=
  if s.data.contains '.' then
    (((s.data.reverse.dropWhile fun c => c ≠ '.').drop 1).reverse).asString
  else s

/-- The output path from line 129:
`output_folder / (path.name.rsplit('.', 1)[0] + '_edit.jpg')`. -/
def output_file (output_folder : String) (p : String) : String :=
  output_folder ++ "/" ++ (stemOf (pathName p) ++ "_edit.jpg")

/-- Python `Path.parent` for relative '/'-separated paths: the prefix
before the last '/', or `"."` when there is no '/'. -/
def pathParent (p : String) : String :=
  if p.data.contains '/' then
    (((p.data.reverse.dropWhile fun c => c ≠ '/').drop 1).reverse).asString
  else "."

/-- `output_folder` from line 157: the parent of the first listed file
joined with `'output'` (`Path('.') / 'output'` collapses to `output`). -/
def outputFolderOf (firstPath : String) : String :=
  if pathParent firstPath = "." then "output"
  else pathParent firstPath ++ "/" ++ "output"

/-- A concrete sheet holding a stale path in row 10, column B, left over
from an earlier, longer populate run. -/
def wbW : Nat → Nat → Option String :=
  fun r c => if r = 10 ∧ c = 2 then some "stale" else none

/-- The externally visible effects of one run of `main` (lines 148–168). -/
inductive Event where
  | populate
  | fatalNoFiles
  | removeOutput (dir : String)
  | makeOutput (dir : String)
  | processItem (path : String) (text : Option String)
deriving DecidableEq

def isMake : Event → Bool
  | .makeOutput _ => true
  | _ => false

def isRemove : Event → Bool
  | .removeOutput _ => true
  | _ => false

def isProcess : Event → Bool
  | .processItem _ _ => true
  | _ => false

/-- The two CLI flags `main` consults. -/
structure Args where
  populatingMode : Bool
  disableLabeling : Bool

/-- The effect trace of `main` (lines 148–168): optional populate pass;
then, unless labelling is disabled, read the work items, exit fatally when
none were found, otherwise remove the output folder if it exists
(`exists() and is_dir()` is the single flag `outputExists`), create it,
and process every work item in order.  The configuration scalars do not
influence the trace shape and are omitted; the `some []` branch repeats
the fatal branch but is unreachable (`load_rows_from_xlsx` never returns
`some []`). -/
def mainEvents (args : Args) (sampleText : Option String)
    (rows : List (Option String × Option String)) (outputExists : Bool) :
    List Event :=
  (if args.populatingMode then [Event.populate] else []) ++
  (if args.disableLabeling then [] else
    match load_rows_from_xlsx sampleText rows with
    | none => [Event.fatalNoFiles]
    | some [] => [Event.fatalNoFiles]
    | some ((p, t) :: rest) =>
        (if outputExists then [Event.removeOutput (outputFolderOf p)]
         else []) ++
        [Event.makeOutput (outputFolderOf p)] ++
        ((p, t) :: rest).map fun kv => Event.processItem kv.1 kv.2)

end Autolabel

namespace Autolabel

/-- If `j` iterations reach a quality whose size fits the budget while all
earlier qualities exceed it, the loop exits there. -/
theorem sizeLoop_exit (sz : Int → Nat) (B : Nat) :
    ∀ (fuel j : Nat) (q0 : Int), j ≤ fuel → sz (q0 - 5 * j) ≤ B →
      (∀ i : Nat, i < j → B < sz (q0 - 5 * i)) →
      sizeLoop sz B fuel q0 = q0 - 5 * j := by
  intro fuel
  induction fuel with
  | zero =>
    intro j q0 hj hfit _
    interval_cases j
    simp [sizeLoop]
  | succ fuel ih =>
    intro j q0 hj hfit hmin
    cases j with
    | zero =>
      simp only [Nat.cast_zero, mul_zero, sub_zero] at hfit
      simp [sizeLoop, Nat.not_lt.mpr hfit]
    | succ j' =>
      have h0 : B < sz q0 := by
        have := hmin 0 (Nat.succ_pos j')
        simpa using this
      have harg : q0 - 5 - 5 * (j' : Int) = q0 - 5 * ((j' + 1 : Nat) : Int) := by
        push_cast; ring
      have hfit' : sz (q0 - 5 - 5 * (j' : Int)) ≤ B := by rw [harg]; exact hfit
      have hmin' : ∀ i : Nat, i < j' → B < sz (q0 - 5 - 5 * (i : Int)) := by
        intro i hi
        have harg' : q0 - 5 - 5 * (i : Int) = q0 - 5 * ((i + 1 : Nat) : Int) := by
          push_cast; ring
        rw [harg']
        exact hmin (i + 1) (Nat.succ_lt_succ hi)
      have := ih j' (q0 - 5) (Nat.succ_le_succ_iff.mp hj) hfit' hmin'
      simp only [sizeLoop, h0, if_pos]
      rw [this, harg]

/-- C1: Size Search optimality.  For every size profile `sz` and byte budget
`B` such that some quality `90 - 5*k` in the descending tested sequence fits
the budget, the quality `Q` returned by the loop (run with enough fuel)
satisfies `sz Q ≤ B`, every higher tested quality exceeds the budget, and in
particular `sz (Q + 5) > B` whenever `Q < 90`. -/
theorem size_search_optimal (sz : Int → Nat) (B : Nat) (fuel k : Nat)
    (hk : sz (90 - 5 * (k : Int)) ≤ B) (hfuel : k ≤ fuel) :
    sz (sizeLoop sz B fuel 90) ≤ B ∧
    (∀ j : Nat, sizeLoop sz B fuel 90 < 90 - 5 * (j : Int) →
      B < sz (90 - 5 * (j : Int))) ∧
    (sizeLoop sz B fuel 90 < 90 → B < sz (sizeLoop sz B fuel 90 + 5)) := by
  have hex : ∃ j : Nat, sz (90 - 5 * (j : Int)) ≤ B := ⟨k, hk⟩
  have hspec : sz (90 - 5 * ((Nat.find hex : Nat) : Int)) ≤ B := Nat.find_spec hex
  have hmin : ∀ i : Nat, i < Nat.find hex → B < sz (90 - 5 * (i : Int)) := by
    intro i hi
    exact Nat.lt_of_not_le (Nat.find_min hex hi)
  have hnk : Nat.find hex ≤ k := Nat.find_min' hex hk
  have hQ : sizeLoop sz B fuel 90 = 90 - 5 * ((Nat.find hex : Nat) : Int) :=
    sizeLoop_exit sz B fuel (Nat.find hex) 90 (le_trans hnk hfuel) hspec hmin
  refine ⟨by rw [hQ]; exact hspec, ?_, ?_⟩
  · intro j hj
    rw [hQ] at hj
    have hjn : j < Nat.find hex := by omega
    exact hmin j hjn
  · intro hlt
    rw [hQ] at hlt ⊢
    have hn1 : 1 ≤ Nat.find hex := by omega
    have harg : (90 : Int) - 5 * ((Nat.find hex : Nat) : Int) + 5 =
        90 - 5 * ((Nat.find hex - 1 : Nat) : Int) := by
      push_cast [Nat.cast_sub hn1]; ring
    rw [harg]
    exact hmin (Nat.find hex - 1) (by omega)

/-- Witness for C1 at the concrete profile `szW`, budget 5, `k = 1`,
fuel 3: the loop returns quality 85. -/
theorem size_search_optimal_witness :
    szW (90 - 5 * ((1 : Nat) : Int)) ≤ 5 ∧ (1 : Nat) ≤ 3 ∧
    (szW (sizeLoop szW 5 3 90) ≤ 5 ∧
     (∀ j : Nat, sizeLoop szW 5 3 90 < 90 - 5 * (j : Int) →
       5 < szW (90 - 5 * (j : Int))) ∧
     (sizeLoop szW 5 3 90 < 90 → 5 < szW (sizeLoop szW 5 3 90 + 5))) :=
  ⟨by decide, by decide, size_search_optimal szW 5 3 1 (by decide) (by decide)⟩

/-- If no tested quality ever fits the budget, the loop body fires at every
iteration: after `fuel` iterations the quality is exactly `q0 - 5 * fuel`. -/
theorem sizeLoop_no_exit (sz : Int → Nat) (B : Nat) :
    ∀ (fuel : Nat) (q0 : Int), (∀ j : Nat, B < sz (q0 - 5 * (j : Int))) →
      sizeLoop sz B fuel q0 = q0 - 5 * (fuel : Int) := by
  intro fuel
  induction fuel with
  | zero => intro q0 _; simp [sizeLoop]
  | succ fuel ih =>
    intro q0 h
    have h0 : B < sz q0 := by simpa using h 0
    have h' : ∀ j : Nat, B < sz (q0 - 5 - 5 * (j : Int)) := by
      intro j
      have harg : q0 - 5 - 5 * (j : Int) = q0 - 5 * ((j + 1 : Nat) : Int) := by
        push_cast; ring
      rw [harg]; exact h (j + 1)
    simp only [sizeLoop, h0, if_pos]
    rw [ih (q0 - 5) h']
    push_cast; ring

/-- C2: Size Search has no lower bound on quality.  If no quality in the
tested sequence `90, 85, 80, ...` fits the budget, the loop never stops on
the quality value alone: after `fuel` iterations the quality is
`90 - 5 * fuel`, and in particular after 19 iterations it is already the
negative value −5 with the loop still running. -/
theorem size_search_no_lower_bound (sz : Int → Nat) (B : Nat)
    (h : ∀ j : Nat, B < sz (90 - 5 * (j : Int))) :
    (∀ fuel : Nat, sizeLoop sz B fuel 90 = 90 - 5 * (fuel : Int)) ∧
    sizeLoop sz B 19 90 = -5 := by
  constructor
  · intro fuel; exact sizeLoop_no_exit sz B fuel 90 h
  · rw [sizeLoop_no_exit sz B 19 90 h]; norm_num

/-- Witness for C2 at the constant profile `szOne` and budget 0. -/
theorem size_search_no_lower_bound_witness :
    (∀ fuel : Nat, sizeLoop szOne 0 fuel 90 = 90 - 5 * (fuel : Int)) ∧
    sizeLoop szOne 0 19 90 = -5 :=
  size_search_no_lower_bound szOne 0 (fun _ => Nat.one_pos)

theorem countP_map_processItem_isMake (l : List (String × Option String)) :
    (l.map fun kv => Event.processItem kv.1 kv.2).countP isMake = 0 := by
  induction l with
  | nil => rfl
  | cons a l ih => simp [List.countP_cons, isMake, ih]

theorem countP_map_processItem_isRemove (l : List (String × Option String)) :
    (l.map fun kv => Event.processItem kv.1 kv.2).countP isRemove = 0 := by
  induction l with
  | nil => rfl
  | cons a l ih => simp [List.countP_cons, isRemove, ih]

theorem countP_map_processItem_isProcess (l : List (String × Option String)) :
    (l.map fun kv => Event.processItem kv.1 kv.2).countP isProcess =
      l.length := by
  induction l with
  | nil => rfl
  | cons a l ih => simp [List.countP_cons, isProcess, ih]

/-- C7: output directory lifecycle.  In normal mode (labelling enabled)
with a non-empty work-item list, the trace of `main` splits around a single
`makeOutput` event: everything before it contains no processing and no
other make, and exactly one `removeOutput` when the folder existed (none
otherwise); everything after it is purely per-item processing, one event
per work item — so the delete-then-create happens exactly once, before any
work item reaches the pipeline. -/
theorem output_dir_recreated_once_before_processing
    (args : Args) (sampleText : Option String)
    (rows : List (Option String × Option String)) (ex : Bool)
    (p : String) (t : Option String) (rest : List (String × Option String))
    (hdl : args.disableLabeling = false)
    (hload : load_rows_from_xlsx sampleText rows = some ((p, t) :: rest)) :
    ∃ pre post,
      mainEvents args sampleText rows ex =
        pre ++ Event.makeOutput (outputFolderOf p) :: post ∧
      pre.countP isProcess = 0 ∧
      pre.countP isMake = 0 ∧
      pre.countP isRemove = (if ex then 1 else 0) ∧
      post.countP isMake = 0 ∧
      post.countP isRemove = 0 ∧
      post.countP isProcess = post.length ∧
      post.length = rest.length + 1 := by
  refine ⟨(if args.populatingMode then [Event.populate] else []) ++
      (if ex then [Event.removeOutput (outputFolderOf p)] else []),
      ((p, t) :: rest).map fun kv => Event.processItem kv.1 kv.2,
      ?_, ?_, ?_, ?_, ?_, ?_, ?_, ?_⟩
  · simp [mainEvents, hdl, hload]
  · cases args.populatingMode <;> cases ex <;>
      simp [List.countP_cons, isProcess]
  · cases args.populatingMode <;> cases ex <;>
      simp [List.countP_cons, isMake]
  · cases args.populatingMode <;> cases ex <;>
      simp [List.countP_cons, isRemove]
  · exact countP_map_processItem_isMake _
  · exact countP_map_processItem_isRemove _
  · rw [countP_map_processItem_isProcess]
    simp
  · simp

/-- Witness for C7: one work item `a/x.jpg`, populate off, labelling on,
output folder already present. -/
theorem output_dir_recreated_once_witness :
    (Args.mk false false).disableLabeling = false ∧
    load_rows_from_xlsx none [(some "a/x.jpg", some "hi")] =
      some [("a/x.jpg", some "hi")] ∧
    ∃ pre post,
      mainEvents ⟨false, false⟩ none [(some "a/x.jpg", some "hi")] true =
        pre ++ Event.makeOutput (outputFolderOf "a/x.jpg") :: post ∧
      pre.countP isProcess = 0 ∧
      pre.countP isMake = 0 ∧
      pre.countP isRemove = (if true then 1 else 0) ∧
      post.countP isMake = 0 ∧
      post.countP isRemove = 0 ∧
      post.countP isProcess = post.length ∧
      post.length = List.length ([] : List (String × Option String)) + 1 :=
  ⟨rfl, rfl,
   output_dir_recreated_once_before_processing ⟨false, false⟩ none
     [(some "a/x.jpg", some "hi")] true "a/x.jpg" (some "hi") [] rfl rfl⟩

/-- C8: zero rows are fatal.  When reading the spreadsheet yields no work
items and labelling is enabled, the run's trace is just the optional
populate pass followed by the user-facing fatal exit: it contains the
fatal event and no output-directory removal, no creation, and no
processing. -/
theorem no_work_items_fatal (args : Args) (sampleText : Option String)
    (rows : List (Option String × Option String)) (ex : Bool)
    (hdl : args.disableLabeling = false)
    (hload : load_rows_from_xlsx sampleText rows = none) :
    mainEvents args sampleText rows ex =
      (if args.populatingMode then [Event.populate] else []) ++
        [Event.fatalNoFiles] ∧
    Event.fatalNoFiles ∈ mainEvents args sampleText rows ex ∧
    (mainEvents args sampleText rows ex).countP isMake = 0 ∧
    (mainEvents args sampleText rows ex).countP isRemove = 0 ∧
    (mainEvents args sampleText rows ex).countP isProcess = 0 := by
  have htr : mainEvents args sampleText rows ex =
      (if args.populatingMode then [Event.populate] else []) ++
        [Event.fatalNoFiles] := by
    simp [mainEvents, hdl, hload]
  refine ⟨htr, ?_, ?_, ?_, ?_⟩ <;> rw [htr] <;>
    cases args.populatingMode <;>
    simp [List.countP_cons, isMake, isRemove, isProcess]

/-- Witness for C8: the first path cell of row 3 is already empty. -/
theorem no_work_items_fatal_witness :
    (Args.mk true false).disableLabeling = false ∧
    load_rows_from_xlsx (some "dflt") [(none, some "x")] = none ∧
    (mainEvents ⟨true, false⟩ (some "dflt") [(none, some "x")] false =
      (if (Args.mk true false).populatingMode then [Event.populate]
       else []) ++ [Event.fatalNoFiles] ∧
     Event.fatalNoFiles ∈
       mainEvents ⟨true, false⟩ (some "dflt") [(none, some "x")] false ∧
     (mainEvents ⟨true, false⟩ (some "dflt")
       [(none, some "x")] false).countP isMake = 0 ∧
     (mainEvents ⟨true, false⟩ (some "dflt")
       [(none, some "x")] false).countP isRemove = 0 ∧
     (mainEvents ⟨true, false⟩ (some "dflt")
       [(none, some "x")] false).countP isProcess = 0) :=
  ⟨rfl, rfl,
   no_work_items_fatal ⟨true, false⟩ (some "dflt") [(none, some "x")] false
     rfl rfl⟩

theorem writeCells_frame (files : List String) :
    ∀ (wb : Nat → Nat → Option String) (row r c : Nat),
      (c ≠ 2 ∨ r < row ∨ row + files.length ≤ r) →
      writeCells wb row files r c = wb r c := by
  induction files with
  | nil => intro wb row r c _; rfl
  | cons f fs ih =>
    intro wb row r c h
    have hih : c ≠ 2 ∨ r < row + 1 ∨ (row + 1) + fs.length ≤ r := by
      rcases h with h | h | h
      · exact Or.inl h
      · exact Or.inr (Or.inl (by omega))
      · exact Or.inr (Or.inr (by simp at h; omega))
    show writeCells (setCell wb row 2 f) (row + 1) fs r c = wb r c
    rw [ih (setCell wb row 2 f) (row + 1) r c hih]
    have hne : ¬ (r = row ∧ c = 2) := by
      rintro ⟨rfl, rfl⟩
      rcases h with h | h | h
      · exact h rfl
      · omega
      · simp at h
    simp only [setCell]
    rw [if_neg hne]

theorem writeCells_get (files : List String) :
    ∀ (wb : Nat → Nat → Option String) (row i : Nat) (hi : i < files.length),
      writeCells wb row files (row + i) 2 = some (files.get ⟨i, hi⟩) := by
  induction files with
  | nil => intro wb row i hi; exact absurd hi (by simp)
  | cons f fs ih =>
    intro wb row i hi
    cases i with
    | zero =>
      show writeCells (setCell wb row 2 f) (row + 1) fs (row + 0) 2 = some f
      rw [writeCells_frame fs (setCell wb row 2 f) (row + 1) (row + 0) 2
        (Or.inr (Or.inl (by omega)))]
      simp [setCell]
    | succ j =>
      show writeCells (setCell wb row 2 f) (row + 1) fs (row + (j + 1)) 2 =
        some (fs.get ⟨j, Nat.succ_lt_succ_iff.mp hi⟩)
      have harg : row + (j + 1) = (row + 1) + j := by omega
      rw [harg]
      exact ih (setCell wb row 2 f) (row + 1) j (Nat.succ_lt_succ_iff.mp hi)

/-- C9: populate mode writes only column-B cells of rows `3 .. 2 + n`
(`n` the number of discovered files, the i-th file landing in row `3 + i`);
every other cell — in particular any stale path cell in a row beyond
`2 + n` — is saved back unchanged. -/
theorem populate_writes_only_column_B (wb : Nat → Nat → Option String)
    (files : List String) (r c : Nat)
    (h : c ≠ 2 ∨ r < 3 ∨ 3 + files.length ≤ r) :
    write_files_in_xlsx wb files r c = wb r c ∧
    ∀ i (hi : i < files.length),
      write_files_in_xlsx wb files (3 + i) 2 = some (files.get ⟨i, hi⟩) := by
  constructor
  · exact writeCells_frame files wb 3 r c h
  · intro i hi
    exact writeCells_get files wb 3 i hi

/-- Witness for C9: a populate run that finds one file writes row 3 and
leaves the stale path of row 10 in place. -/
theorem populate_writes_only_column_B_witness :
    ((2 : Nat) ≠ 2 ∨ (10 : Nat) < 3 ∨ 3 + ["new"].length ≤ 10) ∧
    (write_files_in_xlsx wbW ["new"] 10 2 = wbW 10 2 ∧
     ∀ i (hi : i < ["new"].length),
       write_files_in_xlsx wbW ["new"] (3 + i) 2 =
         some ((["new"] : List String).get ⟨i, hi⟩)) :=
  ⟨Or.inr (Or.inr (by simp)),
   populate_writes_only_column_B wbW ["new"] 10 2
     (Or.inr (Or.inr (by simp)))⟩

/-- C10: the output path chosen by the pipeline depends only on the output
folder and the source basename's stem (name up to the last dot): two work
items whose source names share a stem are written to the same
`<stem>_edit.jpg` path, so the later one overwrites the earlier one. -/
theorem output_path_depends_only_on_stem (output_folder p1 p2 : String)
    (h : stemOf (pathName p1) = stemOf (pathName p2)) :
    output_file output_folder p1 = output_file output_folder p2 := by
  unfold output_file
  rw [h]

/-- Witness for C10: `a/x.png` and `b/x.jpg` live in different directories
with different extensions, yet both map to `out/x_edit.jpg`. -/
theorem output_path_depends_only_on_stem_witness :
    stemOf (pathName "a/x.png") = stemOf (pathName "b/x.jpg") ∧
    output_file "out" "a/x.png" = output_file "out" "b/x.jpg" ∧
    output_file "out" "a/x.png" = "out/x_edit.jpg" :=
  ⟨by decide,
   output_path_depends_only_on_stem "out" "a/x.png" "b/x.jpg" (by decide),
   by decide⟩

/-- C3 counterexample: with `max_res_x = 1000`, `max_res_y = 150` and a
200×100 input, the width after the first check (200) exceeds `max_res_y`,
yet the result is 300×150 — its width is not `max_res_y = 150`; the second
check scales by `max_res_y / height`, not by `max_res_y / width`. -/
theorem resize_second_check_counterexample :
    (resize1 1000 200 100).1 > 150 ∧
    (resizeStage 1000 150 200 100).1 ≠ 150 ∧
    resizeStage 1000 150 200 100 = (300, 150) := by decide

/-- C3 (amended): when the width left by the first check exceeds
`max_res_y` (and the intermediate height is positive, as it is for any real
bitmap), the second check scales both dimensions by `max_res_y / height`:
the result's height equals `max_res_y` and its width is
`width * max_res_y / height` (floor) — it is the height, not the width,
that ends up equal to `max_res_y`. -/
theorem resize_second_check_amended (maxResX maxResY w h : Nat)
    (hw : (resize1 maxResX w h).1 > maxResY)
    (hh : 0 < (resize1 maxResX w h).2) :
    (resizeStage maxResX maxResY w h).2 = maxResY ∧
    (resizeStage maxResX maxResY w h).1 =
      (resize1 maxResX w h).1 * maxResY / (resize1 maxResX w h).2 := by
  unfold resizeStage resize2
  simp [hw]

/-- Witness for C3 (amended) at `max_res_x = 1000`, `max_res_y = 150`,
input 200×100. -/
theorem resize_second_check_amended_witness :
    (resize1 1000 200 100).1 > 150 ∧ 0 < (resize1 1000 200 100).2 ∧
    ((resizeStage 1000 150 200 100).2 = 150 ∧
     (resizeStage 1000 150 200 100).1 =
       (resize1 1000 200 100).1 * 150 / (resize1 1000 200 100).2) :=
  ⟨by decide, by decide,
   resize_second_check_amended 1000 150 200 100 (by decide) (by decide)⟩

/-- C4 counterexample: with `max_res_x = 3000`, `max_res_y = 2250` (both
positive) and a 4000×2000 input (wider than `max_res_x`), the resize stage
yields 4500×2250: the final width is not `max_res_x = 3000`, because the
second bound check fires again after the first resize. -/
theorem resize_width_counterexample :
    (0 : Nat) < 3000 ∧ (0 : Nat) < 2250 ∧ (4000 : Nat) > 3000 ∧
    (resizeStage 3000 2250 4000 2000).1 ≠ 3000 ∧
    resizeStage 3000 2250 4000 2000 = (4500, 2250) := by decide

/-- C4 (amended): for inputs wider than `max_res_x`, provided additionally
`max_res_x ≤ max_res_y` (so the second bound check cannot re-fire), the
resize stage returns width exactly `max_res_x` and height
`h * max_res_x / w` (aspect ratio preserved up to flooring). -/
theorem resize_width_amended (maxResX maxResY w h : Nat)
    (hx : 0 < maxResX) (hy : 0 < maxResY) (hw : w > maxResX)
    (hxy : maxResX ≤ maxResY) :
    resizeStage maxResX maxResY w h = (maxResX, h * maxResX / w) := by
  simp [resizeStage, resize1, resize2, hw, Nat.not_lt.mpr hxy]

/-- C5 counterexample: at font size 1 (> 0), corner (0, 0), a 10×10 text
box on a 100×100 image, the text origin coincides with the rectangle's
origin corner: the margin on the left and top sides is zero, so the
rectangle does not contain the text with nonzero margin on all sides. -/
theorem label_geometry_counterexample :
    (0 : Int) < 1 ∧
    rectangleCoords 100 100 10 10 1 0 0 = some ⟨0, 0, 11, 11⟩ ∧
    ¬ strictlyContains ⟨0, 0, 11, 11⟩
        (textOrigin ⟨0, 0, 11, 11⟩ 1).1 (textOrigin ⟨0, 0, 11, 11⟩ 1).2
        10 10 := by
  decide

/-- C5 (amended): for every image size, measured text box and corner
choice, once the font size is at least 3 the computed rectangle strictly
contains the text box placed at the text origin, with a nonzero margin on
all four sides.  (At font sizes 1 and 2 one of the margins is zero: the
claim's bound `font size > 0` is not enough.) -/
theorem label_geometry_amended (w h tw th fs cx cy : Int) (hfs : 3 ≤ fs)
    (hcx : cx = 0 ∨ cx = 1) (hcy : cy = 0 ∨ cy = 1) :
    ∃ r, rectangleCoords w h tw th fs cx cy = some r ∧
      strictlyContains r (textOrigin r fs).1 (textOrigin r fs).2 tw th := by
  have h2 : 1 ≤ fs / 2 := by omega
  have h3 : fs / 2 + 1 < fs := by omega
  rcases hcx with rfl | rfl <;> rcases hcy with rfl | rfl <;>
    refine ⟨_, rfl, ?_⟩ <;>
    simp only [strictlyContains, textOrigin] <;>
    refine ⟨?_, ?_, ?_, ?_⟩ <;> simp <;> omega

/-- Witness for C5 (amended): font size 4, corner (1, 1), a 10×10 text box
on a 100×100 image. -/
theorem label_geometry_amended_witness :
    (3 : Int) ≤ 4 ∧ ((1 : Int) = 0 ∨ (1 : Int) = 1) ∧
    ∃ r, rectangleCoords 100 100 10 10 4 1 1 = some r ∧
      strictlyContains r (textOrigin r 4).1 (textOrigin r 4).2 10 10 :=
  ⟨by decide, Or.inr rfl,
   label_geometry_amended 100 100 10 10 4 1 1 (by decide) (Or.inr rfl)
     (Or.inr rfl)⟩

/-- C6 counterexample: at opacity 1 (within [0, 100]) the code's fill
alpha `255 * 1 // 100 = 2` differs from round-to-nearest
`round(2.55) = 3`. -/
theorem label_fill_alpha_counterexample :
    (1 : Nat) ≤ 100 ∧ (rectangleFill 1).2.2.2 = 2 ∧ specRoundAlpha 1 = 3 ∧
    (rectangleFill 1).2.2.2 ≠ specRoundAlpha 1 := by decide

/-- C6 (amended): for every opacity, the label rectangle is filled white
with alpha `⌊255 × opacity / 100⌋` (floor, not round-to-nearest), the
alpha is monotone in opacity with endpoints 0 ↦ 0 and 100 ↦ 255, and the
outline is black with width 4. -/
theorem label_fill_and_outline :
    (∀ opacity : Nat,
        rectangleFill opacity = (255, 255, 255, 255 * opacity / 100)) ∧
    (∀ opacity : Nat,
        (rectangleFill opacity).2.2.2 ≤ (rectangleFill (opacity + 1)).2.2.2) ∧
    (rectangleFill 0).2.2.2 = 0 ∧ (rectangleFill 100).2.2.2 = 255 ∧
    rectangleOutline = (0, 0, 0) ∧ rectangleOutlineWidth = 4 := by
  refine ⟨fun _ => rfl, fun opacity => ?_, rfl, rfl, rfl, rfl⟩
  exact Nat.div_le_div_right (by omega)

/-- Witness for C4 (amended) at `max_res_x = 1000`, `max_res_y = 1500`,
input 4000×2000: the result is 1000×500. -/
theorem resize_width_amended_witness :
    (0 : Nat) < 1000 ∧ (0 : Nat) < 1500 ∧ (4000 : Nat) > 1000 ∧
    (1000 : Nat) ≤ 1500 ∧
    resizeStage 1000 1500 4000 2000 = (1000, 2000 * 1000 / 4000) :=
  ⟨by decide, by decide, by decide, by decide,
   resize_width_amended 1000 1500 4000 2000 (by decide) (by decide) (by decide)
     (by decide)⟩

end Autolabel
